import Mathlib

/-!
Verification development for a single-file Streamlit topic-modeling app
(`streamlit_app.py`).  The app collects sidebar configuration values,
normalizes raw text input (a manual multi-line text box or a CSV column)
into a list of documents, builds a UMAP configuration and a BERTopic
configuration, runs a fit-and-assign call, and renders a topic summary
table plus up to four charts, each chart call wrapped in its own
try/except.

Strings are shallowly embedded as `List Char`.  The third-party library
calls (`fit_transform`, `visualize_barchart`, `visualize_hierarchy`,
`visualize_heatmap`, `visualize_topics`) are modelled as oracle
functions returning `Except`: an `Except.error` models the call raising
an exception.  The rendering side effects (`st.header`, `st.write`,
`st.dataframe`, `st.plotly_chart`, `st.error`, `st.warning`,
`st.success`, `st.info`, `st.button`) are modelled as an ordered list
of `Event`s produced by the request.
-/

/-- Whitespace as recognized by Python `str.strip()`, restricted to the
ASCII whitespace characters (space, tab, newline, carriage return,
vertical tab, form feed). -/
def pyIsSpace (c : Char) : Bool :=
  c = ' ' || c = '\t' || c = '\n' || c = '\r' ||
    c = Char.ofNat 11 || c = Char.ofNat 12

/-- Python `doc.strip()`: remove leading and trailing whitespace. -/
def pyStrip (s : List Char) : List Char :=
  List.rdropWhile pyIsSpace (List.dropWhile pyIsSpace s)

/-- Python `user_input.split("\n")` (line 94): split on every newline
character, keeping empty segments. -/
def splitNl : List Char → List (List Char)
  | [] => [[]]
  | c :: cs =>
    let r := splitNl cs
    if c = '\n' then [] :: r else (c :: r.headI) :: r.tail

/-- The comprehension `[doc.strip() for doc in documents if doc.strip()]`
(lines 95 and 119): keep the documents whose stripped form is non-empty,
replacing each by its stripped form. -/
def normStep (xs : List (List Char)) : List (List Char) :=
  (xs.filter fun d => pyStrip d ≠ []).map pyStrip

/-- Manual-input normalization (lines 94–95): split the text area
content on newlines, then strip and drop blank entries. -/
def normalizeManual (raw : List Char) : List (List Char) :=
  normStep (splitNl raw)

/-- CSV-column normalization (lines 118–119):
`df[column_name].dropna().astype(str).tolist()` followed by the strip
comprehension.  A cell is `none` when the value is missing (NaN);
`some s` carries the cell's text coercion. -/
def normalizeCsv (col : List (Option (List Char))) : List (List Char) :=
  normStep (col.filterMap id)

/-- Modelled from the spec: the Document Set of a manual input is "the
ordered list obtained by splitting the raw text on line breaks, trimming
each line, and dropping entries that are empty after trimming". -/
def manualSpec (raw : List Char) : List (List Char) :=
  ((splitNl raw).map pyStrip).filter fun d => d ≠ []

/-- Modelled from the spec: the Document Set of a CSV column is "the
ordered list obtained by taking that column's values, dropping rows
whose value is missing, coercing each remaining value to text, trimming
it, and dropping entries empty after trimming". -/
def csvSpec (col : List (Option (List Char))) : List (List Char) :=
  ((col.filterMap id).map pyStrip).filter fun d => d ≠ []

/-- Line 136: `n_neighbors = max(2, min(n_neighbors_max, len(documents) - 2))`.
Python integer arithmetic, so the subtraction lives in `Int`. -/
def n_neighbors (n_neighbors_max : Int) (docCount : Nat) : Int :=
  max 2 (min n_neighbors_max ((docCount : Int) - 2))

/-- Modelled from the spec: `clamp(x, lo, hi)` in the sentence
"effective neighbor count = clamp(max-neighbor-count, 2, document-count − 2)". -/
def clampSpec (x lo hi : Int) : Int :=
  max lo (min x hi)

/-- Lines 174 and 206: the `top_n_topics` argument of
`visualize_barchart`, `min(top_n_topics, len(topic_info) - 1)`. -/
def freqTopN (top_n_topics : Int) (topicInfoLen : Nat) : Int :=
  min top_n_topics ((topicInfoLen : Int) - 1)

/-- The UMAP distance metric selectbox (lines 41–46). -/
inductive Metric where
  | cosine
  | euclidean
  | manhattan
deriving DecidableEq

/-- The BERTopic language selectbox (lines 58–63). -/
inductive LanguageMode where
  | english
  | multilingual
deriving DecidableEq

/-- The eight sidebar controls (lines 17–79), one field per widget. -/
structure SidebarConfig where
  n_neighbors_max : Int
  n_components : Nat
  min_dist : ℚ
  metric : Metric
  min_topic_size : Nat
  language : LanguageMode
  top_n_topics : Int
  show_all_viz : Bool
deriving DecidableEq

/-- The `UMAP(...)` constructor call (lines 137–144). -/
structure UMAP where
  n_neighbors : Int
  n_components : Nat
  min_dist : ℚ
  metric : Metric
  random_state : Nat
  init : String
deriving DecidableEq

/-- The `BERTopic(...)` constructor call (lines 145–150). -/
structure BERTopic where
  umap_model : UMAP
  verbose : Bool
  min_topic_size : Nat
  language : LanguageMode
deriving DecidableEq

/-- Lines 136–144: build the UMAP model from the sidebar values and the
document count, with the fixed seed 42 and `init='random'`. -/
def mkUmap (cfg : SidebarConfig) (docs : List (List Char)) : UMAP :=
  { n_neighbors := n_neighbors cfg.n_neighbors_max docs.length
    n_components := cfg.n_components
    min_dist := cfg.min_dist
    metric := cfg.metric
    random_state := 42
    init := "random" }

/-- Lines 145–150: build the BERTopic model around the UMAP model. -/
def mkTopicModel (cfg : SidebarConfig) (docs : List (List Char)) : BERTopic :=
  { umap_model := mkUmap cfg docs
    verbose := false
    min_topic_size := cfg.min_topic_size
    language := cfg.language }

/-- The value returned by a successful `fit_transform` plus the
`get_topic_info()` table: topic assignments (one per document) and the
summary rows (topic id, count). -/
structure FitOutput where
  topics : List Int
  topicInfo : List (Int × Nat)
deriving DecidableEq

/-- The third-party library calls, as oracles.  `Except.error msg`
models the call raising an exception with message `msg`. -/
structure Oracles where
  fit : BERTopic → List (List Char) → Except String FitOutput
  barchart : FitOutput → Int → Except String Unit
  hierarchy : FitOutput → Except String Unit
  heatmap : FitOutput → Except String Unit
  topicsChart : FitOutput → Except String Unit

/-- The four chart types of Step 4, in source order. -/
inductive ChartKind where
  | frequency
  | hierarchy
  | heatmap
  | topicWords
deriving DecidableEq

/-- The `st.subheader` title of each chart block (lines 173, 181, 189, 197). -/
def chartTitle : ChartKind → String
  | .frequency => "Topic Frequency"
  | .hierarchy => "Topic Hierarchy"
  | .heatmap => "Topic Similarity Heatmap"
  | .topicWords => "Top Words per Topic"

/-- One rendered output element of the request, in display order. -/
inductive Event where
  | header (s : String)
  | writeMsg (s : String)
  | markdown (s : String)
  | analyzeButton
  | dataframe (rows : List (Int × Nat))
  | subheader (s : String)
  | plotly (k : ChartKind)
  | chartWarning (k : ChartKind) (msg : String)
  | errorMsg (msg : String)
  | successMsg
  | infoMsg
  | emptyDocsWarning
deriving DecidableEq

/-- The chart call inside each of the four try blocks.  The frequency
call passes `min(top_n_topics, len(topic_info) - 1)` (the identical
expression at lines 174 and 206); the other three take no extra
argument (lines 182, 190, 198). -/
def chartResult (o : Oracles) (cfg : SidebarConfig) (fr : FitOutput) :
    ChartKind → Except String Unit
  | .frequency => o.barchart fr (freqTopN cfg.top_n_topics fr.topicInfo.length)
  | .hierarchy => o.hierarchy fr
  | .heatmap => o.heatmap fr
  | .topicWords => o.topicsChart fr

/-- One try/except chart block: the subheader is emitted first, then
either the chart or the per-chart warning naming that chart. -/
def chartBlock (k : ChartKind) (r : Except String Unit) : List Event :=
  Event.subheader (chartTitle k) ::
    match r with
    | .ok _ => [Event.plotly k]
    | .error e => [Event.chartWarning k e]

/-- The analysis body (lines 131–211), run when the button is clicked:
build the configurations, attempt the fit, and on success render the
summary table and the charts.  On fit failure `st.error` then `st.stop()`
ends the request (line 159), so nothing after the except block runs. -/
def runAnalysis (o : Oracles) (cfg : SidebarConfig)
    (docs : List (List Char)) : List Event :=
  [Event.header "Step 1: Initialize BERTopic",
   Event.writeMsg "Initializing the BERTopic model...",
   Event.header "Step 2: Fit the Model",
   Event.writeMsg "Fitting the BERTopic model to your data..."] ++
  match o.fit (mkTopicModel cfg docs) docs with
  | .error e => [Event.errorMsg ("Error fitting model: " ++ e)]
  | .ok fr =>
    [Event.header "Step 3: Extracted Topics",
     Event.writeMsg "The following topics were extracted:",
     Event.dataframe fr.topicInfo,
     Event.header "Step 4: Visualizations"] ++
    (if cfg.show_all_viz then
      chartBlock .frequency (chartResult o cfg fr .frequency) ++
      chartBlock .hierarchy (chartResult o cfg fr .hierarchy) ++
      chartBlock .heatmap (chartResult o cfg fr .heatmap) ++
      chartBlock .topicWords (chartResult o cfg fr .topicWords)
    else
      chartBlock .frequency (chartResult o cfg fr .frequency)) ++
    [Event.successMsg]

/-- Which input tab produced the documents (`source`, lines 85, 96, 120). -/
inductive Source where
  | manual
  | csv
deriving DecidableEq

/-- The raw per-request input state: the text area content, the selected
CSV column when a file is uploaded and a column chosen, and whether the
analyze button was clicked. -/
structure AppInput where
  manual_text : List Char
  csvColumn : Option (List (Option (List Char)))
  analyze_clicked : Bool

/-- Lines 84–121: `documents`/`source` after the two tabs run.  The
manual tab sets them when the text area is non-empty (Python truthiness
of `user_input`); the CSV tab, which runs after it, overwrites them
when a file is uploaded and a column selected. -/
def computeDocs (inp : AppInput) :
    Option (List (List Char)) × Option Source :=
  let m : Option (List (List Char)) × Option Source :=
    if inp.manual_text ≠ [] then
      (some (normalizeManual inp.manual_text), some Source.manual)
    else (none, none)
  match inp.csvColumn with
  | some col => (some (normalizeCsv col), some Source.csv)
  | none => m

/-- Lines 212–216: the prompt shown when no non-empty document list is
available — `st.info` when no input source was touched, `st.warning`
when a source produced only blank documents. -/
def promptEvents : Option Source → List Event
  | none => [Event.infoMsg]
  | some _ => [Event.emptyDocsWarning]

/-- Lines 124–216: the analysis section.  `if documents:` is Python
truthiness, so both `None` and the empty list fall through to the
prompts; otherwise the analyze button is offered and, when clicked, the
analysis body runs. -/
def appRender (o : Oracles) (cfg : SidebarConfig) (inp : AppInput) :
    List Event :=
  match computeDocs inp with
  | (some docs, src) =>
    if docs ≠ [] then
      Event.markdown "---" :: Event.analyzeButton ::
        (if inp.analyze_clicked then runAnalysis o cfg docs else [])
    else promptEvents src
  | (none, src) => promptEvents src

/-- Recognizes `st.error` events. -/
def isErrorEvent : Event → Bool
  | .errorMsg _ => true
  | _ => false

/-- Recognizes the summary-table event. -/
def isDataframeEvent : Event → Bool
  | .dataframe _ => true
  | _ => false

/-- Recognizes rendered-chart events. -/
def isPlotlyEvent : Event → Bool
  | .plotly _ => true
  | _ => false

/-- Recognizes chart-subheader events. -/
def isSubheaderEvent : Event → Bool
  | .subheader _ => true
  | _ => false

/-- Recognizes the final `st.success` event. -/
def isSuccessEvent : Event → Bool
  | .successMsg => true
  | _ => false

/-- The chart named by a per-chart warning event, if any. -/
def chartWarnKind : Event → Option ChartKind
  | .chartWarning k _ => some k
  | _ => none

/-- The chart rendered by a plotly event, if any. -/
def plotlyKind : Event → Option ChartKind
  | .plotly k => some k
  | _ => none

/-- The head of `dropWhile p l`, when it exists, fails `p`. -/
theorem head?_dropWhile_false {α : Type} (p : α → Bool) :
    ∀ (l : List α) (a : α), (List.dropWhile p l).head? = some a → p a = false := by
  intro l
  induction l with
  | nil => simp [List.dropWhile]
  | cons x xs ih =>
    intro a h
    rw [List.dropWhile_cons] at h
    split at h
    · exact ih a h
    · rename_i hx
      simp only [List.head?_cons, Option.some.injEq] at h
      subst h
      exact Bool.eq_false_iff.mpr hx

/-- A stripped string has no leading whitespace left. -/
theorem dropWhile_pyStrip (s : List Char) :
    List.dropWhile pyIsSpace (pyStrip s) = pyStrip s := by
  unfold pyStrip
  rcases h : List.rdropWhile pyIsSpace (List.dropWhile pyIsSpace s) with _ | ⟨a, u⟩
  · simp
  · obtain ⟨w, hw⟩ := List.rdropWhile_prefix pyIsSpace (List.dropWhile pyIsSpace s)
    rw [h] at hw
    have ha : pyIsSpace a = false := by
      apply head?_dropWhile_false pyIsSpace s a
      rw [← hw]
      simp
    rw [List.dropWhile_cons, ha]
    simp

/-- Python `strip` is idempotent. -/
theorem pyStrip_idem (s : List Char) : pyStrip (pyStrip s) = pyStrip s := by
  show List.rdropWhile pyIsSpace (List.dropWhile pyIsSpace (pyStrip s)) = pyStrip s
  rw [dropWhile_pyStrip]
  show List.rdropWhile pyIsSpace
      (List.rdropWhile pyIsSpace (List.dropWhile pyIsSpace s)) = pyStrip s
  rw [List.rdropWhile_idempotent]
  rfl

/-- Unfolding `normStep` over a cons cell. -/
theorem normStep_cons (x : List Char) (xs : List (List Char)) :
    normStep (x :: xs) =
      if pyStrip x = [] then normStep xs else pyStrip x :: normStep xs := by
  by_cases h : pyStrip x = []
  · simp [normStep, List.filter_cons, h]
  · simp [normStep, List.filter_cons, h]

/-- The comprehension order (filter on the raw entry, then strip) agrees
with the spec order (strip every entry, then drop the empties). -/
theorem normStep_eq_map_filter (xs : List (List Char)) :
    normStep xs = (xs.map pyStrip).filter fun d => d ≠ [] := by
  induction xs with
  | nil => rfl
  | cons x xs ih =>
    by_cases h : pyStrip x = []
    · simp [normStep_cons, h, List.filter_cons, ih]
    · simp [normStep_cons, h, List.filter_cons, ih]

/-- Applying the strip-and-drop step twice is the same as applying it once. -/
theorem normStep_idem (xs : List (List Char)) :
    normStep (normStep xs) = normStep xs := by
  induction xs with
  | nil => rfl
  | cons x xs ih =>
    rw [normStep_cons]
    by_cases h : pyStrip x = []
    · rw [if_pos h]
      exact ih
    · rw [if_neg h, normStep_cons, pyStrip_idem, if_neg h, ih]

/-- Every entry of a normalized list is a non-empty fixed point of `pyStrip`. -/
theorem mem_normStep {d : List Char} {xs : List (List Char)}
    (hd : d ∈ normStep xs) : pyStrip d = d ∧ d ≠ [] := by
  unfold normStep at hd
  simp only [List.mem_map, List.mem_filter] at hd
  obtain ⟨d₀, ⟨_, hne⟩, rfl⟩ := hd
  refine ⟨pyStrip_idem d₀, ?_⟩
  simpa using hne

/-- C1: the effective neighbor count passed to the UMAP configuration
equals `clamp(max-neighbor-count, 2, document_count − 2)`; it satisfies
`2 ≤ effective ≤ max 2 (document_count − 2)` whenever the document
count is at least 4, and it is forced to 2 whenever the document count
is at most 4. -/
theorem n_neighbors_clamp_spec (nmax : Int) (dc : Nat)
    (h2 : 2 ≤ nmax) (h15 : nmax ≤ 15) :
    n_neighbors nmax dc = clampSpec nmax 2 ((dc : Int) - 2) ∧
    (4 ≤ dc → 2 ≤ n_neighbors nmax dc ∧
      n_neighbors nmax dc ≤ max 2 ((dc : Int) - 2)) ∧
    (dc ≤ 4 → n_neighbors nmax dc = 2) := by
  refine ⟨rfl, fun hdc => ?_, fun hdc => ?_⟩ <;>
  · unfold n_neighbors
    simp only [max_def, min_def]
    split_ifs <;> omega

/-- Witness for the neighbor-count clamping at 3 documents. -/
theorem n_neighbors_clamp_spec_witness :
    2 ≤ (5 : Int) ∧ (5 : Int) ≤ 15 ∧ (3 : Nat) ≤ 4 ∧ n_neighbors 5 3 = 2 :=
  ⟨by decide, by decide, by decide,
    (n_neighbors_clamp_spec 5 3 (by decide) (by decide)).2.2 (by decide)⟩

/-- C9: the effective neighbor count never exceeds the configured
maximum; with the slider domain `[2,15]` it always lies in `[2,15]`,
and it equals the configured maximum exactly whenever the document
count is at least the configured maximum plus 2. -/
theorem n_neighbors_le_max (nmax : Int) (dc : Nat)
    (h2 : 2 ≤ nmax) (h15 : nmax ≤ 15) :
    n_neighbors nmax dc ≤ nmax ∧
    2 ≤ n_neighbors nmax dc ∧ n_neighbors nmax dc ≤ 15 ∧
    (nmax + 2 ≤ (dc : Int) → n_neighbors nmax dc = nmax) := by
  unfold n_neighbors
  simp only [max_def, min_def]
  split_ifs <;> omega

/-- Witness for the neighbor-count upper bound at 10 documents. -/
theorem n_neighbors_le_max_witness :
    2 ≤ (5 : Int) ∧ (5 : Int) ≤ 15 ∧ n_neighbors 5 10 = 5 ∧
      n_neighbors 5 10 ≤ 5 :=
  ⟨by decide, by decide,
    (n_neighbors_le_max 5 10 (by decide) (by decide)).2.2.2 (by decide),
    (n_neighbors_le_max 5 10 (by decide) (by decide)).1⟩

/-- C5: the manual-input Document Set equals the ordered list obtained
by splitting on line breaks, trimming each line and dropping entries
empty after trimming, and the spec's example input yields
`["a", "b", "c"]`. -/
theorem manual_normalization_spec :
    (∀ raw : List Char, normalizeManual raw = manualSpec raw) ∧
    normalizeManual ("a\n\n  b  \nc".toList) =
      ["a".toList, "b".toList, "c".toList] := by
  constructor
  · intro raw
    exact normStep_eq_map_filter (splitNl raw)
  · decide

/-- C6: the CSV-column Document Set equals the ordered list obtained by
dropping missing rows, coercing to text, trimming and dropping entries
empty after trimming, and the spec's example column yields `["x", "y"]`. -/
theorem csv_normalization_spec :
    (∀ col : List (Option (List Char)), normalizeCsv col = csvSpec col) ∧
    normalizeCsv [none, some ("x".toList), some ("  y ".toList)] =
      ["x".toList, "y".toList] := by
  constructor
  · intro col
    exact normStep_eq_map_filter (col.filterMap id)
  · decide

/-- C10: the strip-and-drop-empty step is idempotent; every produced
Document Set (manual or CSV) is a fixed point of it, and none of its
entries is empty or whitespace-only. -/
theorem normStep_idempotent :
    (∀ xs, normStep (normStep xs) = normStep xs) ∧
    (∀ xs, ∀ d ∈ normStep xs, pyStrip d = d ∧ d ≠ []) ∧
    (∀ raw, normStep (normalizeManual raw) = normalizeManual raw) ∧
    (∀ col, normStep (normalizeCsv col) = normalizeCsv col) :=
  ⟨normStep_idem, fun _ _ hd => mem_normStep hd,
    fun raw => normStep_idem (splitNl raw),
    fun col => normStep_idem (col.filterMap id)⟩

/-- Witness for normalization idempotence on a concrete list. -/
theorem normStep_idempotent_witness :
    normStep (normStep ["  a ".toList, "  ".toList]) =
        normStep ["  a ".toList, "  ".toList] ∧
      "a".toList ∈ normStep ["  a ".toList, "  ".toList] ∧
      pyStrip ("a".toList) = "a".toList ∧ "a".toList ≠ [] :=
  ⟨normStep_idempotent.1 _, by decide,
    (normStep_idempotent.2.1 ["  a ".toList, "  ".toList] ("a".toList)
      (by decide)).1,
    (normStep_idempotent.2.1 ["  a ".toList, "  ".toList] ("a".toList)
      (by decide)).2⟩

/-- The fixed events emitted before and after a successful fit, up to
the start of the visualization blocks. -/
def stepPrefix (fr : FitOutput) : List Event :=
  [Event.header "Step 1: Initialize BERTopic",
   Event.writeMsg "Initializing the BERTopic model...",
   Event.header "Step 2: Fit the Model",
   Event.writeMsg "Fitting the BERTopic model to your data...",
   Event.header "Step 3: Extracted Topics",
   Event.writeMsg "The following topics were extracted:",
   Event.dataframe fr.topicInfo,
   Event.header "Step 4: Visualizations"]

/-- C2: if the fit-and-assign call raises, exactly one error message is
shown and the request halts: no summary table, no chart subheaders, no
charts, no per-chart warnings and no completion message appear. -/
theorem fit_failure_halts (o : Oracles) (cfg : SidebarConfig)
    (docs : List (List Char)) (msg : String)
    (hfit : o.fit (mkTopicModel cfg docs) docs = Except.error msg) :
    (runAnalysis o cfg docs).countP isErrorEvent = 1 ∧
    (runAnalysis o cfg docs).countP isDataframeEvent = 0 ∧
    (runAnalysis o cfg docs).countP isSubheaderEvent = 0 ∧
    (runAnalysis o cfg docs).countP isPlotlyEvent = 0 ∧
    (runAnalysis o cfg docs).filterMap chartWarnKind = [] ∧
    (runAnalysis o cfg docs).countP isSuccessEvent = 0 := by
  unfold runAnalysis
  rw [hfit]
  simp [List.countP_cons, List.countP_append, isErrorEvent,
    isDataframeEvent, isSubheaderEvent, isPlotlyEvent, isSuccessEvent,
    chartWarnKind, List.filterMap]

/-- C8: the reduction configuration handed to the fit carries the fixed
random seed 42 and the non-spectral `'random'` initialization, and —
the library calls being modelled as functions of their arguments —
repeated invocations on identical documents with identical
configuration build identical fit arguments, obtain identical fit
results and render identical output. -/
theorem fit_configuration_deterministic (o : Oracles)
    (cfg cfg' : SidebarConfig) (docs docs' : List (List Char))
    (hcfg : cfg = cfg') (hdocs : docs = docs') :
    (mkUmap cfg docs).random_state = 42 ∧
    (mkUmap cfg docs).init = "random" ∧
    mkTopicModel cfg docs = mkTopicModel cfg' docs' ∧
    o.fit (mkTopicModel cfg docs) docs =
      o.fit (mkTopicModel cfg' docs') docs' ∧
    runAnalysis o cfg docs = runAnalysis o cfg' docs' := by
  subst hcfg
  subst hdocs
  exact ⟨rfl, rfl, rfl, rfl, rfl⟩

/-- C3: with all visualizations enabled and a successful fit, if
exactly one of the four chart calls raises, the summary table is still
shown, exactly the other three charts render (in source order), exactly
one warning names the failed chart, no error is raised and the request
completes. -/
theorem chart_fault_isolation (o : Oracles) (cfg : SidebarConfig)
    (docs : List (List Char)) (fr : FitOutput) (msg : String)
    (k : ChartKind)
    (hviz : cfg.show_all_viz = true)
    (hfit : o.fit (mkTopicModel cfg docs) docs = Except.ok fr)
    (hk : chartResult o cfg fr k = Except.error msg)
    (hok : ∀ j : ChartKind, j ≠ k → chartResult o cfg fr j = Except.ok ()) :
    Event.dataframe fr.topicInfo ∈ runAnalysis o cfg docs ∧
    (runAnalysis o cfg docs).filterMap plotlyKind =
      ([ChartKind.frequency, ChartKind.hierarchy, ChartKind.heatmap,
        ChartKind.topicWords].filter fun j => j ≠ k) ∧
    (runAnalysis o cfg docs).filterMap chartWarnKind = [k] ∧
    (runAnalysis o cfg docs).countP isErrorEvent = 0 ∧
    Event.successMsg ∈ runAnalysis o cfg docs := by
  cases k with
  | frequency =>
    have h1 := hok .hierarchy (by decide)
    have h2 := hok .heatmap (by decide)
    have h3 := hok .topicWords (by decide)
    simp [runAnalysis, chartBlock, hfit, hviz, hk, h1, h2, h3,
      plotlyKind, chartWarnKind, isErrorEvent, List.filterMap_cons,
      List.filter_cons, List.countP_cons, List.countP_append]
  | hierarchy =>
    have h1 := hok .frequency (by decide)
    have h2 := hok .heatmap (by decide)
    have h3 := hok .topicWords (by decide)
    simp [runAnalysis, chartBlock, hfit, hviz, hk, h1, h2, h3,
      plotlyKind, chartWarnKind, isErrorEvent, List.filterMap_cons,
      List.filter_cons, List.countP_cons, List.countP_append]
  | heatmap =>
    have h1 := hok .frequency (by decide)
    have h2 := hok .hierarchy (by decide)
    have h3 := hok .topicWords (by decide)
    simp [runAnalysis, chartBlock, hfit, hviz, hk, h1, h2, h3,
      plotlyKind, chartWarnKind, isErrorEvent, List.filterMap_cons,
      List.filter_cons, List.countP_cons, List.countP_append]
  | topicWords =>
    have h1 := hok .frequency (by decide)
    have h2 := hok .hierarchy (by decide)
    have h3 := hok .heatmap (by decide)
    simp [runAnalysis, chartBlock, hfit, hviz, hk, h1, h2, h3,
      plotlyKind, chartWarnKind, isErrorEvent, List.filterMap_cons,
      List.filter_cons, List.countP_cons, List.countP_append]

/-- C4: the topic-count limit handed to the frequency chart equals
`min(top-n-topics, summary_row_count − 1)` and so never exceeds
`summary_row_count − 1`; the spec's example (12 summary rows,
configured 20) receives 11; and the frequency chart call uses this
limit in both visualization modes. -/
theorem freq_topn_bounded (top : Int) (rows : Nat)
    (h5 : 5 ≤ top) (h20 : top ≤ 20) :
    freqTopN top rows = min top ((rows : Int) - 1) ∧
    freqTopN top rows ≤ (rows : Int) - 1 ∧
    freqTopN 20 12 = 11 ∧
    (∀ (o : Oracles) (cfg : SidebarConfig) (fr : FitOutput),
      chartResult o cfg fr .frequency =
        o.barchart fr (freqTopN cfg.top_n_topics fr.topicInfo.length)) ∧
    (∀ (o : Oracles) (cfg : SidebarConfig) (docs : List (List Char))
        (fr : FitOutput),
      o.fit (mkTopicModel cfg docs) docs = Except.ok fr →
      ∃ pre post, runAnalysis o cfg docs =
        pre ++ chartBlock .frequency (chartResult o cfg fr .frequency)
          ++ post) := by
  refine ⟨rfl, min_le_right _ _, by decide, fun _ _ _ => rfl, ?_⟩
  intro o cfg docs fr hfit
  cases hviz : cfg.show_all_viz with
  | false =>
    refine ⟨stepPrefix fr, [Event.successMsg], ?_⟩
    simp [runAnalysis, stepPrefix, hfit, hviz]
  | true =>
    refine ⟨stepPrefix fr,
      chartBlock .hierarchy (chartResult o cfg fr .hierarchy) ++
      chartBlock .heatmap (chartResult o cfg fr .heatmap) ++
      chartBlock .topicWords (chartResult o cfg fr .topicWords) ++
      [Event.successMsg], ?_⟩
    simp [runAnalysis, stepPrefix, hfit, hviz]

/-- C7: when normalization yields no documents, the analyze button is
not offered, the output is exactly one prompt asking for more input,
and no error message (hence no fit failure) occurs. -/
theorem empty_docs_gating (o : Oracles) (cfg : SidebarConfig)
    (inp : AppInput)
    (h : (computeDocs inp).1 = some [] ∨ (computeDocs inp).1 = none) :
    appRender o cfg inp = promptEvents (computeDocs inp).2 ∧
    Event.analyzeButton ∉ appRender o cfg inp ∧
    (appRender o cfg inp = [Event.infoMsg] ∨
      appRender o cfg inp = [Event.emptyDocsWarning]) ∧
    (appRender o cfg inp).countP isErrorEvent = 0 := by
  rcases hcd : computeDocs inp with ⟨d, src⟩
  rw [hcd] at h
  unfold appRender
  rw [hcd]
  simp only at h
  rcases h with h | h <;> subst h <;>
    rcases src with _ | s <;>
      simp [promptEvents, isErrorEvent]

/-- A concrete four-document input for the witnesses. -/
def docsEx : List (List Char) :=
  ["apples and oranges".toList, "cats and dogs".toList,
   "apples and pears".toList, "dogs and cats".toList]

/-- A concrete fit result: two topics plus the outlier row. -/
def frEx : FitOutput :=
  { topics := [0, 1, 0, 1], topicInfo := [(-1, 0), (0, 2), (1, 2)] }

/-- The sidebar defaults (the `value`/`index` arguments of the widgets). -/
def cfgEx : SidebarConfig :=
  { n_neighbors_max := 5
    n_components := 2
    min_dist := 0
    metric := .cosine
    min_topic_size := 2
    language := .english
    top_n_topics := 10
    show_all_viz := true }

/-- Oracles where every library call succeeds. -/
def oAllOk : Oracles :=
  { fit := fun _ _ => .ok frEx
    barchart := fun _ _ => .ok ()
    hierarchy := fun _ => .ok ()
    heatmap := fun _ => .ok ()
    topicsChart := fun _ => .ok () }

/-- Oracles where only the hierarchy chart call raises. -/
def oHierFails : Oracles :=
  { fit := fun _ _ => .ok frEx
    barchart := fun _ _ => .ok ()
    hierarchy := fun _ => .error "not enough topics"
    heatmap := fun _ => .ok ()
    topicsChart := fun _ => .ok () }

/-- Oracles where the fit call itself raises. -/
def oFitErr : Oracles :=
  { fit := fun _ _ => .error "numerical error"
    barchart := fun _ _ => .ok ()
    hierarchy := fun _ => .ok ()
    heatmap := fun _ => .ok ()
    topicsChart := fun _ => .ok () }

/-- An input whose manual text normalizes to the empty Document Set. -/
def inpEmptyEx : AppInput :=
  { manual_text := "  \n ".toList
    csvColumn := none
    analyze_clicked := true }

/-- Witness for the fit-failure behaviour on a concrete failing oracle. -/
theorem fit_failure_halts_witness :
    oFitErr.fit (mkTopicModel cfgEx docsEx) docsEx =
        Except.error "numerical error" ∧
      (runAnalysis oFitErr cfgEx docsEx).countP isErrorEvent = 1 ∧
      (runAnalysis oFitErr cfgEx docsEx).countP isPlotlyEvent = 0 ∧
      (runAnalysis oFitErr cfgEx docsEx).countP isDataframeEvent = 0 :=
  ⟨rfl,
    (fit_failure_halts oFitErr cfgEx docsEx "numerical error" rfl).1,
    (fit_failure_halts oFitErr cfgEx docsEx "numerical error" rfl).2.2.2.1,
    (fit_failure_halts oFitErr cfgEx docsEx "numerical error" rfl).2.1⟩

/-- Witness for determinism of the fit configuration at concrete input. -/
theorem fit_configuration_deterministic_witness :
    (mkUmap cfgEx docsEx).random_state = 42 ∧
      (mkUmap cfgEx docsEx).init = "random" ∧
      runAnalysis oAllOk cfgEx docsEx = runAnalysis oAllOk cfgEx docsEx :=
  ⟨(fit_configuration_deterministic oAllOk cfgEx cfgEx docsEx docsEx rfl rfl).1,
    (fit_configuration_deterministic oAllOk cfgEx cfgEx docsEx docsEx rfl rfl).2.1,
    (fit_configuration_deterministic oAllOk cfgEx cfgEx docsEx docsEx rfl rfl).2.2.2.2⟩

/-- Witness for chart fault isolation when the hierarchy chart raises. -/
theorem chart_fault_isolation_witness :
    Event.dataframe frEx.topicInfo ∈ runAnalysis oHierFails cfgEx docsEx ∧
      (runAnalysis oHierFails cfgEx docsEx).filterMap plotlyKind =
        ([ChartKind.frequency, ChartKind.hierarchy, ChartKind.heatmap,
          ChartKind.topicWords].filter fun j => j ≠ ChartKind.hierarchy) ∧
      (runAnalysis oHierFails cfgEx docsEx).filterMap chartWarnKind =
        [ChartKind.hierarchy] ∧
      (runAnalysis oHierFails cfgEx docsEx).countP isErrorEvent = 0 ∧
      Event.successMsg ∈ runAnalysis oHierFails cfgEx docsEx :=
  chart_fault_isolation oHierFails cfgEx docsEx frEx "not enough topics"
    .hierarchy rfl rfl rfl
    (fun j hj => by cases j <;> first | rfl | exact absurd rfl hj)

/-- Witness for the frequency-chart topic limit at the spec's example. -/
theorem freq_topn_bounded_witness :
    5 ≤ (20 : Int) ∧ (20 : Int) ≤ 20 ∧ freqTopN 20 12 = 11 ∧
      freqTopN 20 12 ≤ ((12 : Nat) : Int) - 1 :=
  ⟨by decide, by decide,
    (freq_topn_bounded 20 12 (by decide) (by decide)).2.2.1,
    (freq_topn_bounded 20 12 (by decide) (by decide)).2.1⟩

/-- Witness for the empty-input gating on a whitespace-only input. -/
theorem empty_docs_gating_witness :
    ((computeDocs inpEmptyEx).1 = some [] ∨
        (computeDocs inpEmptyEx).1 = none) ∧
      appRender oAllOk cfgEx inpEmptyEx =
        promptEvents (computeDocs inpEmptyEx).2 ∧
      Event.analyzeButton ∉ appRender oAllOk cfgEx inpEmptyEx ∧
      appRender oAllOk cfgEx inpEmptyEx = [Event.emptyDocsWarning] :=
  ⟨Or.inl (by decide),
    (empty_docs_gating oAllOk cfgEx inpEmptyEx (Or.inl (by decide))).1,
    (empty_docs_gating oAllOk cfgEx inpEmptyEx (Or.inl (by decide))).2.1,
    by decide⟩
